import Mathlib

/-!
# Afterwatch — verification of the reconciliation and eviction engine

Shallow embedding of `src/app/services/processor.py` (together with the
pieces of `src/app/services/emby.py` it calls) and proofs about it.

Modelling conventions:
* Python `str` is Lean `String`; `str.startswith` / `str.endswith` are
  modelled character-wise on `String.data` (`str_startswith`, `str_endswith`),
  `str.lower` by `Char.toLower` on each character.
* `datetime` values are integers (seconds); `timedelta(days = d)` is
  `d * dayLength` with `dayLength = 86400`.
* Python dicts appear either as association lists (`List (key × value)`,
  looked up with `List.lookup`, mirroring `dict.get(k, default)`) or, for the
  per-user access-policy dict, as the structure `UserAccess` whose field
  defaults are precisely the defaults the code supplies via
  `user_access.get('all_access', False)` etc.
* Each awaited HTTP call is an oracle field returning `Except String α`
  (`.error e` models the call raising an exception whose text is `e`), and
  filesystem operations are an oracle `FS`.
* Effects (inventory-system calls, deleted/created files, DB rows added or
  removed) are made explicit in the result structure `EpisodeResult`.
-/
/-- Character-wise model of Python `s.startswith(p)`. -/
def str_startswith (s p : String) : Bool := p.data.isPrefixOf s.data

/-- Character-wise model of Python `s.endswith(p)`. -/
def str_endswith (s p : String) : Bool := p.data.isSuffixOf s.data

/-- Character-wise model of Python `s.lower()` (ASCII case folding). -/
def str_lower (s : String) : String := ⟨s.data.map Char.toLower⟩

/-- Python `len(s)` (number of characters). -/
def str_len (s : String) : Nat := s.data.length

/-- One second per unit; `timedelta(days = d)` is `d * dayLength`. -/
def dayLength : Int := 86400

/-! ## Folder classifier (`get_subfolder_id_for_path`, processor.py:87-94) -/
/-- The sort relation used by
`sorted(folder_mappings.items(), key=lambda x: len(x[1]), reverse=True)`:
`a` may come before `b` iff `b`'s path is no longer than `a`'s.  Python's
sort is stable, as is `List.insertionSort`. -/
def byPathLenDesc (a b : Int × String) : Prop := str_len b.2 ≤ str_len a.2

instance : DecidableRel byPathLenDesc := fun _ _ => Nat.decLe _ _

instance : IsTotal (Int × String) byPathLenDesc :=
  ⟨fun a b => (Nat.le_total (str_len a.2) (str_len b.2)).symm⟩

instance : IsTrans (Int × String) byPathLenDesc :=
  ⟨fun _ _ _ hab hbc => Nat.le_trans hbc hab⟩

/-- The `for subfolder_id, folder_path in sorted_mappings` loop with its
early `return`. -/
def first_prefix_match (file_path : String) : List (Int × String) → Option Int
  | [] => none
  | m :: rest =>
    if str_startswith file_path m.2 then some m.1
    else first_prefix_match file_path rest

/-- processor.py:87-94 — find which subfolder a file belongs to based on its
path: sort mappings by path length descending, return the first whose path is
a prefix of `file_path`, `none` if no mapping matches. -/
def get_subfolder_id_for_path (file_path : String)
    (folder_mappings : List (Int × String)) : Option Int :=
  first_prefix_match file_path (folder_mappings.insertionSort byPathLenDesc)

/-! ## Access model (`user_can_access_file`, processor.py:97-117) -/
/-- The per-user access-policy dict built by
`EmbyClient.get_all_user_access_details` (emby.py:68-110).  The field
defaults are the defaults the consumer supplies:
`user_access.get('all_access', False)`,
`user_access.get('enabled_folders', set())`,
`user_access.get('excluded_subfolders', set())` — so the empty dict `{}`
(used for a user id absent from the access map) is `empty_user_access`. -/
structure UserAccess where
  all_access : Bool := false
  enabled_folders : List String := []
  excluded_subfolders : List Int := []

/-- The empty policy dict `{}`. -/
def empty_user_access : UserAccess := {}

/-- processor.py:97-117 — check if a user can access a specific file based on
their permissions. -/
def user_can_access_file (file_path : String) (user_access : UserAccess)
    (library_guid : String) (folder_mappings : List (Int × String)) : Bool :=
  if user_access.all_access then true
  else if !(user_access.enabled_folders.contains library_guid) then false
  else
    match get_subfolder_id_for_path file_path folder_mappings with
    | none => true
    | some subfolder_id =>
      if user_access.excluded_subfolders.contains subfolder_id then false
      else true

/-! ## Persisted rows (models/watched_episode.py, models/process_log.py) -/
/-- `WatchedEpisode` — one pending-eviction record per file path. -/
structure WatchedEpisode where
  file_path : String
  series_name : String
  season_number : Int
  episode_number : Int
  first_seen_at : Int
deriving DecidableEq, Repr

/-- `ProcessLog` — one row per processed candidate.  Field defaults are the
SQLAlchemy column defaults (`success=True`, `test_mode=False`, the five step
flags `False`, `error_message` nullable). -/
structure ProcessLog where
  series_name : String
  season_number : Int
  episode_number : Int
  episode_title : String
  original_path : String
  original_size_bytes : Int
  strm_path : String
  folder_name : Option String
  watched_by : String
  success : Bool := true
  test_mode : Bool := false
  error_message : Option String := none
  file_deleted : Bool := false
  strm_created : Bool := false
  sonarr_renamed : Bool := false
  sonarr_unmonitored : Bool := false
  season_unmonitored : Bool := false
deriving DecidableEq, Repr

/-! ## Media-server payloads -/
/-- One entry of an episode dict's `MediaSources` list; only `Path`
(defaulted to `""` by `media_sources[0].get("Path", "")`) is consumed. -/
structure MediaSource where
  path : String
deriving DecidableEq, Repr

/-- The episode dict as consumed by `process_episode` (processor.py:256-260):
`Id`, `SeriesName` (default `"Unknown"`), `ParentIndexNumber` (default 0),
`IndexNumber` (default 0), `Name` (default `""`), `MediaSources`.  The dict
`get` defaults are folded into the field values. -/
structure Episode where
  id : String
  series_name : String
  season_number : Int
  episode_number : Int
  name : String
  media_sources : List MediaSource
deriving DecidableEq, Repr

/-! ## Watched-status query (`EmbyClient.check_episode_watched`,
emby.py:133-153) -/
/-- The value recorded for one user:
`response.status_code == 200` with body `data` gives
`data.get("UserData", {}).get("Played", False)`; any other status gives
`False`.  The oracle's `none` models a non-200 response, `some played` a 200
response whose `Played` field is `played` (`none` when absent). -/
def watched_value (response : Option (Option Bool)) : Bool :=
  match response with
  | some played => played.getD false
  | none => false

/-- emby.py:133-153 — query watched status for each given user
individually; the result dict has exactly the queried users as keys, in
order. -/
def check_episode_watched (response : String → Option (Option Bool))
    (user_ids : List String) : List (String × Bool) :=
  user_ids.map fun uid => (uid, watched_value (response uid))

/-! ## Delay / debounce tracker (`check_or_create_watched_record`,
processor.py:202-237) -/
/-- Result of `check_or_create_watched_record`: the returned pair
`(ready_to_process, watched_record)` plus the `watched_episodes` table as
left in the session (the no-record branch does `session.add(watched)`). -/
structure CheckResult where
  ready : Bool
  record : WatchedEpisode
  table : List WatchedEpisode
deriving DecidableEq, Repr

/-- processor.py:202-237 — check if the episode has a pending record and
whether the delay has passed; create the record (with
`first_seen_at = datetime.now()`) if absent. -/
def check_or_create_watched_record (table : List WatchedEpisode)
    (now delay_days : Int) (file_path series_name : String)
    (season_num episode_num : Int) : CheckResult :=
  match table.find? (fun w => w.file_path == file_path) with
  | none =>
    let watched : WatchedEpisode :=
      ⟨file_path, series_name, season_num, episode_num, now⟩
    ⟨false, watched, table ++ [watched]⟩
  | some watched =>
    if delay_days = 0 then ⟨true, watched, table⟩
    else if watched.first_seen_at ≤ now - delay_days * dayLength then
      ⟨true, watched, table⟩
    else ⟨false, watched, table⟩

/-! ## Path helpers (pathlib usage in processor.py) -/
/-- Index of the last `'.'` in a file name, if any. -/
def last_dot_index (name : List Char) : Option Nat :=
  if name.contains '.' then some (name.length - 1 - name.reverse.indexOf '.')
  else none

/-- `str(Path(p).with_suffix(".strm"))` on an already-normalised path: the
final component's suffix (its part from the last `'.'`, when that dot is
neither the name's first nor last character) is replaced by `".strm"`. -/
def with_suffix_strm (p : String) : String :=
  let cs := p.data
  let name := (cs.reverse.takeWhile (fun c => c ≠ '/')).reverse
  let dir := cs.take (cs.length - name.length)
  let stem :=
    match last_dot_index name with
    | some i => if 0 < i ∧ i < name.length - 1 then name.take i else name
    | none => name
  ⟨dir ++ stem ++ ".strm".data⟩

/-- `Path(p).name` on an already-normalised path: the last component. -/
def path_name (p : String) : String :=
  ⟨(p.data.reverse.takeWhile (fun c => c ≠ '/')).reverse⟩

/-! ## Inventory-system and filesystem oracles -/
/-- A Sonarr episode-file record; only `id` is consumed. -/
structure SonarrFile where
  id : Int
deriving DecidableEq, Repr

/-- A Sonarr series record; only `id` is consumed (`series["id"]`). -/
structure SonarrSeries where
  id : Int
deriving DecidableEq, Repr

/-- A Sonarr episode record as consumed by processor.py:360-369:
`ep.get("seasonNumber")` / `ep.get("episodeNumber")` may be absent, `ep["id"]`
is read on the matching record. -/
structure SonarrEpisode where
  id : Int
  seasonNumber : Option Int
  episodeNumber : Option Int
deriving DecidableEq, Repr

/-- One awaited Sonarr API call, as issued by the eviction transaction. -/
inductive SonarrCall where
  | get_episode_file_by_path (path : String)
  | get_series_by_path (path : String)
  | get_episodes_by_series (series_id : Int)
  | set_episode_monitored (episode_id : Int) (monitored : Bool)
  | check_season_complete (series_id season_number : Int)
  | set_season_monitored (series_id season_number : Int) (monitored : Bool)
  | refresh_series (series_id : Int)
  | rename_files (series_id : Int) (file_ids : List Int)
deriving DecidableEq, Repr

/-- Behaviour of the Sonarr client (services/sonarr.py) during one episode:
each call either returns a value or raises an exception with the given
text. -/
structure SonarrOracle where
  get_episode_file_by_path : String → Except String (Option SonarrFile)
  get_series_by_path : String → Except String (Option SonarrSeries)
  get_episodes_by_series : Int → Except String (List SonarrEpisode)
  set_episode_monitored : Int → Bool → Except String Unit
  check_season_complete : Int → Int → Except String Bool
  set_season_monitored : Int → Int → Bool → Except String Unit
  refresh_series : Int → Except String Unit
  rename_files : Int → List Int → Except String Unit

/-- Behaviour of the filesystem (`os.path.exists`, `os.path.getsize`,
`os.remove`, `Path.touch`) during one episode. -/
structure FS where
  exists_file : String → Bool
  getsize : String → Int
  remove_file : String → Except String Unit
  touch : String → Except String Unit

/-! ## `process_episode` (processor.py:240-413) -/
/-- Everything `process_episode` leaves behind: its return value, the
`process_logs` and `watched_episodes` tables as left in the session, the
Sonarr calls issued, and the files deleted from / created on storage. -/
structure EpisodeResult where
  returned : Option ProcessLog
  process_logs : List ProcessLog
  watched_table : List WatchedEpisode
  sonarr_calls : List SonarrCall
  deleted_files : List String
  created_files : List String
deriving DecidableEq, Repr

/-- A `return None` before any state change. -/
def noEffect (logs : List ProcessLog) (table : List WatchedEpisode) :
    EpisodeResult :=
  ⟨none, logs, table, [], [], []⟩

/-- The `except` handler (processor.py:407-409): mark the entry failed and
record the exception text verbatim. -/
def failLog (entry : ProcessLog) (e : String) : ProcessLog :=
  { entry with success := false, error_message := some e }

/-- `session.add(log_entry); return log_entry` at the end of the
transaction (processor.py:412-413). -/
def finishWith (logs : List ProcessLog) (table : List WatchedEpisode)
    (entry : ProcessLog) (calls : List SonarrCall)
    (deleted created : List String) : EpisodeResult :=
  ⟨some entry, logs ++ [entry], table, calls, deleted, created⟩

/-- Steps from `strm_path.touch()` onwards (processor.py:385-405): create the
placeholder, refresh the series, look up the new file, rename it, mark
success and delete the pending record. -/
def evict_touch_onward (sonarr : SonarrOracle) (fs : FS)
    (file_path strm_path : String) (series_id : Int)
    (logs : List ProcessLog) (table : List WatchedEpisode)
    (entry : ProcessLog) (calls : List SonarrCall) (deleted : List String) :
    EpisodeResult :=
  match fs.touch strm_path with
  | .error e => finishWith logs table (failLog entry e) calls deleted []
  | .ok _ =>
    let entry := { entry with strm_created := true }
    match sonarr.refresh_series series_id with
    | .error e =>
      finishWith logs table (failLog entry e)
        (calls ++ [.refresh_series series_id]) deleted [strm_path]
    | .ok _ =>
      match sonarr.get_episode_file_by_path strm_path with
      | .error e =>
        finishWith logs table (failLog entry e)
          (calls ++ [.refresh_series series_id,
            .get_episode_file_by_path strm_path]) deleted [strm_path]
      | .ok (some new_file) =>
        match sonarr.rename_files series_id [new_file.id] with
        | .error e =>
          finishWith logs table (failLog entry e)
            (calls ++ [.refresh_series series_id,
              .get_episode_file_by_path strm_path,
              .rename_files series_id [new_file.id]]) deleted [strm_path]
        | .ok _ =>
          finishWith logs
            (table.filter (fun w => !(w.file_path == file_path)))
            { entry with sonarr_renamed := true, success := true }
            (calls ++ [.refresh_series series_id,
              .get_episode_file_by_path strm_path,
              .rename_files series_id [new_file.id]]) deleted [strm_path]
      | .ok none =>
        finishWith logs
          (table.filter (fun w => !(w.file_path == file_path)))
          { entry with success := true }
          (calls ++ [.refresh_series series_id,
            .get_episode_file_by_path strm_path]) deleted [strm_path]

/-- Steps from the file deletion onwards (processor.py:380-383). -/
def evict_delete_onward (sonarr : SonarrOracle) (fs : FS)
    (file_path strm_path : String) (series_id : Int)
    (logs : List ProcessLog) (table : List WatchedEpisode)
    (entry : ProcessLog) (calls : List SonarrCall) : EpisodeResult :=
  if fs.exists_file file_path then
    match fs.remove_file file_path with
    | .error e => finishWith logs table (failLog entry e) calls [] []
    | .ok _ =>
      evict_touch_onward sonarr fs file_path strm_path series_id logs table
        { entry with file_deleted := true } calls [file_path]
  else
    evict_touch_onward sonarr fs file_path strm_path series_id logs table
      entry calls []

/-- The live eviction transaction: the `try` block of processor.py:347-413,
with the `except` handler folded into every failure case. -/
def live_transaction (sonarr : SonarrOracle) (fs : FS)
    (file_path strm_path : String) (season_num episode_num : Int)
    (entry : ProcessLog) (logs : List ProcessLog)
    (table : List WatchedEpisode) : EpisodeResult :=
  match sonarr.get_episode_file_by_path file_path with
  | .error e =>
    finishWith logs table (failLog entry e)
      [.get_episode_file_by_path file_path] [] []
  | .ok none =>
    finishWith logs table
      (failLog entry ("Could not find file in Sonarr: " ++ file_path))
      [.get_episode_file_by_path file_path] [] []
  | .ok (some _) =>
    match sonarr.get_series_by_path file_path with
    | .error e =>
      finishWith logs table (failLog entry e)
        [.get_episode_file_by_path file_path,
         .get_series_by_path file_path] [] []
    | .ok none =>
      finishWith logs table
        (failLog entry ("Could not find series in Sonarr for: " ++ file_path))
        [.get_episode_file_by_path file_path,
         .get_series_by_path file_path] [] []
    | .ok (some series) =>
      let series_id := series.id
      match sonarr.get_episodes_by_series series_id with
      | .error e =>
        finishWith logs table (failLog entry e)
          [.get_episode_file_by_path file_path,
           .get_series_by_path file_path,
           .get_episodes_by_series series_id] [] []
      | .ok episodes =>
        match episodes.find? (fun ep =>
            ep.seasonNumber == some season_num
              && ep.episodeNumber == some episode_num) with
        | none =>
          finishWith logs table
            (failLog entry "Could not find episode in Sonarr")
            [.get_episode_file_by_path file_path,
             .get_series_by_path file_path,
             .get_episodes_by_series series_id] [] []
        | some sonarr_episode =>
          match sonarr.set_episode_monitored sonarr_episode.id false with
          | .error e =>
            finishWith logs table (failLog entry e)
              [.get_episode_file_by_path file_path,
               .get_series_by_path file_path,
               .get_episodes_by_series series_id,
               .set_episode_monitored sonarr_episode.id false] [] []
          | .ok _ =>
            let entry := { entry with sonarr_unmonitored := true }
            match sonarr.check_season_complete series_id season_num with
            | .error e =>
              finishWith logs table (failLog entry e)
                [.get_episode_file_by_path file_path,
                 .get_series_by_path file_path,
                 .get_episodes_by_series series_id,
                 .set_episode_monitored sonarr_episode.id false,
                 .check_season_complete series_id season_num] [] []
            | .ok complete =>
              if complete then
                match sonarr.set_season_monitored series_id season_num false with
                | .error e =>
                  finishWith logs table (failLog entry e)
                    [.get_episode_file_by_path file_path,
                     .get_series_by_path file_path,
                     .get_episodes_by_series series_id,
                     .set_episode_monitored sonarr_episode.id false,
                     .check_season_complete series_id season_num,
                     .set_season_monitored series_id season_num false] [] []
                | .ok _ =>
                  evict_delete_onward sonarr fs file_path strm_path series_id
                    logs table { entry with season_unmonitored := true }
                    [.get_episode_file_by_path file_path,
                     .get_series_by_path file_path,
                     .get_episodes_by_series series_id,
                     .set_episode_monitored sonarr_episode.id false,
                     .check_season_complete series_id season_num,
                     .set_season_monitored series_id season_num false]
              else
                evict_delete_onward sonarr fs file_path strm_path series_id
                  logs table entry
                  [.get_episode_file_by_path file_path,
                   .get_series_by_path file_path,
                   .get_episodes_by_series series_id,
                   .set_episode_monitored sonarr_episode.id false,
                   .check_season_complete series_id season_num]

/-! ## Stale-record sweep (`cleanup_stale_watched_records`,
processor.py:120-199) -/
/-- An enabled library row (models/library_config.py): `id` is the Emby
ItemId, `guid` the Emby Guid used by the access policies. -/
structure Library where
  id : String
  guid : String
deriving DecidableEq, Repr

/-- processor.py:146-153 — the set of file paths extracted from one user's
watched-episode listing: `MediaSources[0]["Path"]` of each episode that has
media sources and a non-empty path. -/
def extract_watched_paths (eps : List Episode) : List String :=
  eps.filterMap fun ep =>
    match ep.media_sources.head? with
    | some ms => if ms.path = "" then none else some ms.path
    | none => none

/-- processor.py:159-194 — whether one pending record is deleted while
sweeping one library: it must belong to the library's folders (path-prefix
test), and then either no required user can access it, or some accessible
required user no longer has it in their watched set. -/
def stale_remove_condition (user_access_map : List (String × UserAccess))
    (required_users : List String) (library_guid : String)
    (folder_mappings : List (Int × String))
    (watched_paths_of : String → List String) (w : WatchedEpisode) : Bool :=
  let folder_paths := folder_mappings.map (fun m => m.2)
  if !(folder_paths.any (fun fp => str_startswith w.file_path fp)) then false
  else
    let accessible_users := required_users.filter (fun uid =>
      user_can_access_file w.file_path
        ((user_access_map.lookup uid).getD empty_user_access)
        library_guid folder_mappings)
    if accessible_users.isEmpty then true
    else
      accessible_users.any (fun uid =>
        !((watched_paths_of uid).contains w.file_path))

/-- processor.py:131-194 — the sweep over one library: skipped when it has no
required users or no folder mappings, otherwise every pending record meeting
`stale_remove_condition` is deleted. -/
def cleanup_one_library (emby_watched : String → String → List Episode)
    (user_access_map : List (String × UserAccess))
    (required_users_of : String → List String)
    (folder_mappings_of : String → List (Int × String))
    (lib : Library) (table : List WatchedEpisode) : List WatchedEpisode :=
  let required_users := required_users_of lib.id
  if required_users.isEmpty then table
  else
    let folder_mappings := folder_mappings_of lib.id
    if (folder_mappings.map (fun m => m.2)).isEmpty then table
    else
      table.filter (fun w =>
        !(stale_remove_condition user_access_map required_users lib.guid
          folder_mappings
          (fun uid => extract_watched_paths (emby_watched uid lib.id)) w))

/-- processor.py:120-199 — remove pending records for episodes no longer
watched by all (accessible) required users; returns the table as left in the
session and `removed_count`.  `emby_watched uid lib_id` models
`emby.get_watched_episodes(uid, lib_id)`; `required_users_of` and
`folder_mappings_of` model the per-library DB queries
(`get_library_required_users`, `get_folder_mappings`).  The `user_names`
argument of the source is only used for log text and is omitted. -/
def cleanup_stale_watched_records
    (emby_watched : String → String → List Episode)
    (user_access_map : List (String × UserAccess))
    (required_users_of : String → List String)
    (folder_mappings_of : String → List (Int × String))
    (libraries : List Library) (table : List WatchedEpisode) :
    List WatchedEpisode × Nat :=
  libraries.foldl
    (fun acc lib =>
      let t := cleanup_one_library emby_watched user_access_map
        required_users_of folder_mappings_of lib acc.1
      (t, acc.2 + (acc.1.length - t.length)))
    (table, 0)

/-- processor.py:240-413 — process a single episode.  `emby_response uid`
models the watched-status HTTP response for this episode and user `uid`
(see `watched_value`); `process_logs` / `watched_table` are the session's
current `ProcessLog` / `WatchedEpisode` rows; `now` is `datetime.now()` and
`delay_days` is `settings.delay_days`. -/
def process_episode (emby_response : String → Option (Option Bool))
    (sonarr : SonarrOracle) (fs : FS) (episode : Episode)
    (required_users : List String) (excluded_user_ids : List String)
    (user_access_map : List (String × UserAccess))
    (user_names : List (String × String))
    (library_guid : String) (folder_mappings : List (Int × String))
    (test_mode : Bool) (process_logs : List ProcessLog)
    (watched_table : List WatchedEpisode) (now delay_days : Int) :
    EpisodeResult :=
  match episode.media_sources.head? with
  | none => noEffect process_logs watched_table
  | some ms =>
    let file_path := ms.path
    if file_path = "" then noEffect process_logs watched_table
    else if str_endswith (str_lower file_path) ".strm" then
      noEffect process_logs watched_table
    else if !fs.exists_file file_path
        && fs.exists_file (with_suffix_strm file_path) then
      noEffect process_logs watched_table
    else if process_logs.any (fun l =>
        l.original_path == file_path && l.success && !l.test_mode) then
      noEffect process_logs watched_table
    else
      let subfolder_id := get_subfolder_id_for_path file_path folder_mappings
      -- `if subfolder_id:` — Python truthiness: both `None` and `0` fail it
      let folder_name : Option String :=
        match subfolder_id with
        | some sid =>
          if sid = 0 then none
          else
            let folder_path := ((folder_mappings.lookup sid).getD "")
            if folder_path = "" then none else some (path_name folder_path)
        | none => none
      if excluded_user_ids.any (fun uid =>
          user_can_access_file file_path
            ((user_access_map.lookup uid).getD empty_user_access)
            library_guid folder_mappings) then
        noEffect process_logs watched_table
      else
        let accessible_users := required_users.filter (fun uid =>
          user_can_access_file file_path
            ((user_access_map.lookup uid).getD empty_user_access)
            library_guid folder_mappings)
        if accessible_users.isEmpty then noEffect process_logs watched_table
        else
          let watched_status := check_episode_watched emby_response
            accessible_users
          if !(watched_status.all (fun p => p.2)) then
            noEffect process_logs watched_table
          else
            let check := check_or_create_watched_record watched_table now
              delay_days file_path episode.series_name episode.season_number
              episode.episode_number
            if !check.ready then
              ⟨none, process_logs, check.table, [], [], []⟩
            else
              let watched_by := String.intercalate ", "
                ((accessible_users.filter (fun uid =>
                    (watched_status.lookup uid).getD false)).map (fun uid =>
                  (user_names.lookup uid).getD uid))
              let file_size :=
                if fs.exists_file file_path then fs.getsize file_path else 0
              let log_entry : ProcessLog :=
                { series_name := episode.series_name
                  season_number := episode.season_number
                  episode_number := episode.episode_number
                  episode_title := episode.name
                  original_path := file_path
                  original_size_bytes := file_size
                  strm_path := with_suffix_strm file_path
                  folder_name := folder_name
                  watched_by := watched_by
                  test_mode := test_mode }
              if test_mode then
                let entry := { log_entry with success := true }
                ⟨some entry, process_logs ++ [entry], check.table, [], [], []⟩
              else
                live_transaction sonarr fs file_path
                  (with_suffix_strm file_path) episode.season_number
                  episode.episode_number log_entry process_logs check.table

/-- The removal condition of the sweep, spelled out as the amended claim
states it: the record belongs to the library's folders and either no required
user can access it or some accessible required user no longer has it
watched.  (The claim's original "union of watched sets" reading is refuted by
`claim_C2_counterexample` below.) -/
def stale_removal_spec (emby_watched : String → String → List Episode)
    (user_access_map : List (String × UserAccess))
    (required_users_of : String → List String)
    (folder_mappings_of : String → List (Int × String))
    (lib : Library) (w : WatchedEpisode) : Prop :=
  required_users_of lib.id ≠ [] ∧
  folder_mappings_of lib.id ≠ [] ∧
  (∃ m ∈ folder_mappings_of lib.id, str_startswith w.file_path m.2 = true) ∧
  ((required_users_of lib.id).filter (fun uid =>
      user_can_access_file w.file_path
        ((user_access_map.lookup uid).getD empty_user_access)
        lib.guid (folder_mappings_of lib.id)) = []
    ∨ ∃ uid ∈ (required_users_of lib.id).filter (fun uid =>
        user_can_access_file w.file_path
          ((user_access_map.lookup uid).getD empty_user_access)
          lib.guid (folder_mappings_of lib.id)),
        w.file_path ∉ extract_watched_paths (emby_watched uid lib.id))

def embyC2 : String → String → List Episode := fun uid _ =>
  if uid = "u1" then [⟨"e1", "A", 1, 1, "", [⟨"/TV/a.mkv"⟩]⟩] else []

def uamC2 : List (String × UserAccess) :=
  [("u1", ⟨true, [], []⟩), ("u2", ⟨true, [], []⟩)]

def reqC2 : String → List String := fun _ => ["u1", "u2"]

def fmC2 : String → List (Int × String) := fun _ => [(1, "/TV")]

def libC2 : Library := ⟨"L", "G"⟩

def wC2 : WatchedEpisode := ⟨"/TV/a.mkv", "A", 1, 1, 0⟩

/-- A Sonarr behaviour family for exercising the transaction's failure
handling: every call succeeds (file `fid` found, series `sid` found, episode
`eid` matching S01E02 found, season complete) except that the call at
failure point `k` raises an exception with text `m`.  Failure points 0-5 and
8-10 are here; 6 and 7 (file deletion and placeholder creation) are in
`c6_fs`. -/
def c6_sonarr (sid eid fid : Int) (k : Fin 11) (m : String) : SonarrOracle where
  get_episode_file_by_path := fun p =>
    if p = "/TV/a.strm" then
      if k.val = 9 then .error m else .ok (some ⟨fid⟩)
    else
      if k.val = 0 then .error m else .ok (some ⟨fid⟩)
  get_series_by_path := fun _ =>
    if k.val = 1 then .error m else .ok (some ⟨sid⟩)
  get_episodes_by_series := fun _ =>
    if k.val = 2 then .error m else .ok [⟨eid, some 1, some 2⟩]
  set_episode_monitored := fun _ _ =>
    if k.val = 3 then .error m else .ok ()
  check_season_complete := fun _ _ =>
    if k.val = 4 then .error m else .ok true
  set_season_monitored := fun _ _ _ =>
    if k.val = 5 then .error m else .ok ()
  refresh_series := fun _ =>
    if k.val = 8 then .error m else .ok ()
  rename_files := fun _ _ =>
    if k.val = 10 then .error m else .ok ()

/-- Filesystem behaviour for the failure family: the original file exists;
deleting it fails at failure point 6, creating the placeholder fails at
failure point 7. -/
def c6_fs (k : Fin 11) (m : String) : FS where
  exists_file := fun _ => true
  getsize := fun _ => 0
  remove_file := fun _ => if k.val = 6 then .error m else .ok ()
  touch := fun _ => if k.val = 7 then .error m else .ok ()

/-- What the claim says the transaction must leave behind when the step at
failure point `k` raises an exception with text `m`: every step before `k`
has run (its flag is set, its call was made, its file effect happened), every
step from `k` on is skipped, the entry is recorded with `success = false` and
the exception text verbatim, and the pending record is not removed. -/
def c6_expected (sid eid fid : Int) (entry0 : ProcessLog)
    (logs : List ProcessLog) (table : List WatchedEpisode) (k : Fin 11)
    (m : String) : EpisodeResult :=
  let c1 : SonarrCall := .get_episode_file_by_path "/TV/a.mkv"
  let c2 : SonarrCall := .get_series_by_path "/TV/a.mkv"
  let c3 : SonarrCall := .get_episodes_by_series sid
  let c4 : SonarrCall := .set_episode_monitored eid false
  let c5 : SonarrCall := .check_season_complete sid 1
  let c6 : SonarrCall := .set_season_monitored sid 1 false
  let c7 : SonarrCall := .refresh_series sid
  let c8 : SonarrCall := .get_episode_file_by_path "/TV/a.strm"
  let c9 : SonarrCall := .rename_files sid [fid]
  let record := fun (e : ProcessLog) (calls : List SonarrCall)
      (deleted created : List String) =>
    (⟨some e, logs ++ [e], table, calls, deleted, created⟩ : EpisodeResult)
  let failed := fun (e : ProcessLog) =>
    { e with success := false, error_message := some m }
  if k.val = 0 then record (failed entry0) [c1] [] []
  else if k.val = 1 then record (failed entry0) [c1, c2] [] []
  else if k.val = 2 then record (failed entry0) [c1, c2, c3] [] []
  else if k.val = 3 then record (failed entry0) [c1, c2, c3, c4] [] []
  else if k.val = 4 then
    record (failed { entry0 with sonarr_unmonitored := true })
      [c1, c2, c3, c4, c5] [] []
  else if k.val = 5 then
    record (failed { entry0 with sonarr_unmonitored := true })
      [c1, c2, c3, c4, c5, c6] [] []
  else if k.val = 6 then
    record
      (failed { entry0 with
                  sonarr_unmonitored := true
                  season_unmonitored := true })
      [c1, c2, c3, c4, c5, c6] [] []
  else if k.val = 7 then
    record
      (failed { entry0 with
                  sonarr_unmonitored := true
                  season_unmonitored := true
                  file_deleted := true })
      [c1, c2, c3, c4, c5, c6] ["/TV/a.mkv"] []
  else if k.val = 8 then
    record
      (failed { entry0 with
                  sonarr_unmonitored := true
                  season_unmonitored := true
                  file_deleted := true
                  strm_created := true })
      [c1, c2, c3, c4, c5, c6, c7] ["/TV/a.mkv"] ["/TV/a.strm"]
  else if k.val = 9 then
    record
      (failed { entry0 with
                  sonarr_unmonitored := true
                  season_unmonitored := true
                  file_deleted := true
                  strm_created := true })
      [c1, c2, c3, c4, c5, c6, c7, c8] ["/TV/a.mkv"] ["/TV/a.strm"]
  else
    record
      (failed { entry0 with
                  sonarr_unmonitored := true
                  season_unmonitored := true
                  file_deleted := true
                  strm_created := true })
      [c1, c2, c3, c4, c5, c6, c7, c8, c9] ["/TV/a.mkv"] ["/TV/a.strm"]

def sonarrOkW : SonarrOracle where
  get_episode_file_by_path := fun _ => .ok (some ⟨10⟩)
  get_series_by_path := fun _ => .ok (some ⟨5⟩)
  get_episodes_by_series := fun _ => .ok [⟨20, some 1, some 2⟩]
  set_episode_monitored := fun _ _ => .ok ()
  check_season_complete := fun _ _ => .ok true
  set_season_monitored := fun _ _ _ => .ok ()
  refresh_series := fun _ => .ok ()
  rename_files := fun _ _ => .ok ()

def fsOkW : FS where
  exists_file := fun _ => true
  getsize := fun _ => 100
  remove_file := fun _ => .ok ()
  touch := fun _ => .ok ()

def epW : Episode := ⟨"ep1", "A", 1, 2, "t", [⟨"/TV/a.mkv"⟩]⟩

def wRecW : WatchedEpisode := ⟨"/TV/a.mkv", "A", 1, 2, 0⟩

def uaAllW : UserAccess := ⟨true, [], []⟩

def c5w : EpisodeResult :=
  process_episode (fun _ => some (some true)) sonarrOkW fsOkW epW ["u1"] []
    [("u1", uaAllW)] [("u1", "Alice")] "G" [(1, "/TV")] true [] [wRecW]
    (8 * dayLength) 7

/-! ### Lemmas about the classifier -/
theorem first_prefix_match_eq_none_iff (fp : String) (l : List (Int × String)) :
    first_prefix_match fp l = none ↔ ∀ m ∈ l, str_startswith fp m.2 = false := by
  induction l with
  | nil => simp [first_prefix_match]
  | cons m rest ih =>
    by_cases h : str_startswith fp m.2 = true
    · simp [first_prefix_match, h]
    · simp only [Bool.not_eq_true] at h
      simp [first_prefix_match, h, ih]

theorem first_prefix_match_sorted_spec (fp : String) (l : List (Int × String))
    (hs : List.Sorted byPathLenDesc l) (sid : Int)
    (h : first_prefix_match fp l = some sid) :
    ∃ p, (sid, p) ∈ l ∧ str_startswith fp p = true ∧
      ∀ m ∈ l, str_startswith fp m.2 = true → str_len m.2 ≤ str_len p := by
  induction l with
  | nil => simp [first_prefix_match] at h
  | cons m rest ih =>
    rw [List.sorted_cons] at hs
    by_cases hm : str_startswith fp m.2 = true
    · simp only [first_prefix_match, hm, if_pos, Option.some.injEq] at h
      refine ⟨m.2, ?_, hm, ?_⟩
      · rw [← h]; exact List.mem_cons_self _ _
      · intro x hx _
        rcases List.mem_cons.mp hx with rfl | hx'
        · exact Nat.le_refl _
        · exact hs.1 x hx'
    · simp only [Bool.not_eq_true] at hm
      simp only [first_prefix_match, hm, Bool.false_eq_true, if_false] at h
      obtain ⟨p, hmem, hpre, hmax⟩ := ih hs.2 h
      refine ⟨p, List.mem_cons_of_mem _ hmem, hpre, ?_⟩
      intro x hx hxpre
      rcases List.mem_cons.mp hx with rfl | hx'
      · rw [hm] at hxpre; exact absurd hxpre (by simp)
      · exact hmax x hx' hxpre

/-- The classifier returns `none` exactly when no mapping's path is a prefix
of the file path. -/
theorem get_subfolder_id_eq_none_iff (fp : String) (fm : List (Int × String)) :
    get_subfolder_id_for_path fp fm = none ↔
      ∀ m ∈ fm, str_startswith fp m.2 = false := by
  rw [get_subfolder_id_for_path, first_prefix_match_eq_none_iff]
  constructor
  · intro h m hm
    exact h m ((List.mem_insertionSort byPathLenDesc).mpr hm)
  · intro h m hm
    exact h m ((List.mem_insertionSort byPathLenDesc).mp hm)

/-- When the classifier returns `some sid`, some mapping `(sid, p)` matches
and its path length is maximal among all matching mappings. -/
theorem get_subfolder_id_some_spec (fp : String) (fm : List (Int × String))
    (sid : Int) (h : get_subfolder_id_for_path fp fm = some sid) :
    ∃ p, (sid, p) ∈ fm ∧ str_startswith fp p = true ∧
      ∀ m ∈ fm, str_startswith fp m.2 = true → str_len m.2 ≤ str_len p := by
  rw [get_subfolder_id_for_path] at h
  obtain ⟨p, hmem, hpre, hmax⟩ :=
    first_prefix_match_sorted_spec fp _
      (List.sorted_insertionSort byPathLenDesc fm) sid h
  refine ⟨p, (List.mem_insertionSort byPathLenDesc).mp hmem, hpre, ?_⟩
  intro m hm
  exact hmax m ((List.mem_insertionSort byPathLenDesc).mpr hm)

theorem check_ready_table_unchanged (table : List WatchedEpisode)
    (now delay_days : Int) (fp sn : String) (s e : Int)
    (h : (check_or_create_watched_record table now delay_days fp sn s e).ready
          = true) :
    (check_or_create_watched_record table now delay_days fp sn s e).table
      = table := by
  unfold check_or_create_watched_record at *
  cases hf : table.find? (fun w => w.file_path == fp) with
  | none => rw [hf] at h; simp at h
  | some w =>
    rw [hf] at h
    by_cases h0 : delay_days = 0
    · simp [h0]
    · by_cases hc : w.first_seen_at ≤ now - delay_days * dayLength <;>
        simp [h0, hc]

/-- Claim C7: `user_can_access_file` returns true iff the policy grants
unrestricted access, or the library GUID is enabled and the file's resolved
subfolder (if any) is not excluded; in every other case it returns false. -/
theorem claim_C7 : ∀ (fp : String) (ua : UserAccess) (guid : String)
    (fm : List (Int × String)),
    user_can_access_file fp ua guid fm = true ↔
      (ua.all_access = true ∨
        (guid ∈ ua.enabled_folders ∧
          ∀ sid, get_subfolder_id_for_path fp fm = some sid →
            sid ∉ ua.excluded_subfolders)) := by
  intro fp ua guid fm
  unfold user_can_access_file
  by_cases ha : ua.all_access = true
  · simp [ha]
  · simp only [Bool.not_eq_true] at ha
    by_cases hg : guid ∈ ua.enabled_folders
    · have hgc : ua.enabled_folders.contains guid = true := List.elem_iff.mpr hg
      cases hres : get_subfolder_id_for_path fp fm with
      | none => simp [ha, hgc, hres, hg]
      | some sid =>
        by_cases hexc : sid ∈ ua.excluded_subfolders
        · have : ua.excluded_subfolders.contains sid = true := List.elem_iff.mpr hexc
          simp [ha, hgc, hres, hg, this, hexc]
        · have : ua.excluded_subfolders.contains sid = false := by
            rw [← Bool.not_eq_true]
            exact fun hc => hexc (List.elem_iff.mp hc)
          simp [ha, hgc, hres, hg, this, hexc]
    · have hgc : ua.enabled_folders.contains guid = false := by
        rw [← Bool.not_eq_true]
        exact fun hc => hg (List.elem_iff.mp hc)
      simp [ha, hgc, hg]

/-- Claim C8: the classifier returns a mapping whose path is a prefix of the
file path with maximal path length among all matching mappings, and `none`
exactly when no mapping's path is a prefix. -/
theorem claim_C8 : ∀ (fp : String) (fm : List (Int × String)),
    (get_subfolder_id_for_path fp fm = none ↔
      ∀ m ∈ fm, str_startswith fp m.2 = false)
    ∧ (∀ sid, get_subfolder_id_for_path fp fm = some sid →
        ∃ p, (sid, p) ∈ fm ∧ str_startswith fp p = true ∧
          ∀ m ∈ fm, str_startswith fp m.2 = true → str_len m.2 ≤ str_len p) := by
  intro fp fm
  exact ⟨get_subfolder_id_eq_none_iff fp fm,
    fun sid h => get_subfolder_id_some_spec fp fm sid h⟩

/-- Claim C10: the empty policy dict (a user id absent from the access map)
can access nothing: `user_can_access_file` is false for every path, GUID and
mapping set; hence such an excluded user never vetoes a candidate and such a
required user is never counted accessible. -/
theorem claim_C10 : ∀ (fp guid : String) (fm : List (Int × String)),
    (user_can_access_file fp empty_user_access guid fm = false)
    ∧ (∀ (m : List (String × UserAccess)) (uid : String),
        m.lookup uid = none →
          user_can_access_file fp ((m.lookup uid).getD empty_user_access)
            guid fm = false)
    ∧ (∀ (m : List (String × UserAccess)) (required : List String)
        (uid : String), m.lookup uid = none →
          uid ∉ required.filter (fun u =>
            user_can_access_file fp ((m.lookup u).getD empty_user_access)
              guid fm)) := by
  intro fp guid fm
  have base : user_can_access_file fp empty_user_access guid fm = false := by
    unfold user_can_access_file empty_user_access
    simp
  refine ⟨base, fun m uid h => by rw [h]; exact base, ?_⟩
  intro m required uid h hmem
  have := (List.mem_filter.mp hmem).2
  rw [h] at this
  simp only [Option.getD_none] at this
  rw [base] at this
  exact absurd this (by simp)

/-- Claim C3: the delay tracker creates a pending record stamped `now` and
reports not-ready on first observation (even with `delay_days = 0`); on a
later pass it is ready iff `delay_days = 0` or `now - first_seen_at` is at
least `delay_days` days, boundary inclusive; with `delay_days = 7` a record
first seen at `T` is not ready at `T + 6` days and ready from `T + 7` days
on. -/
theorem claim_C3 : ∀ (table : List WatchedEpisode) (now delay_days : Int)
    (fp sn : String) (s e : Int),
    (table.find? (fun w => w.file_path == fp) = none →
      (check_or_create_watched_record table now delay_days fp sn s e).ready
          = false
      ∧ (check_or_create_watched_record table now delay_days fp sn s e).record
          = ⟨fp, sn, s, e, now⟩
      ∧ (check_or_create_watched_record table now delay_days fp sn s e).table
          = table ++ [⟨fp, sn, s, e, now⟩])
    ∧ (∀ w, table.find? (fun x => x.file_path == fp) = some w →
        ((check_or_create_watched_record table now delay_days fp sn s e).ready
            = true
          ↔ delay_days = 0 ∨ delay_days * dayLength ≤ now - w.first_seen_at))
    ∧ (∀ (w : WatchedEpisode) (t2 : List WatchedEpisode),
        t2.find? (fun x => x.file_path == fp) = some w →
          ((check_or_create_watched_record t2 (w.first_seen_at + 6 * dayLength)
              7 fp sn s e).ready = false
          ∧ ∀ n : Int, w.first_seen_at + 7 * dayLength ≤ n →
              (check_or_create_watched_record t2 n 7 fp sn s e).ready
                = true)) := by
  intro table now delay_days fp sn s e
  refine ⟨?_, ?_, ?_⟩
  · intro h
    unfold check_or_create_watched_record
    rw [h]
    exact ⟨rfl, rfl, rfl⟩
  · intro w h
    unfold check_or_create_watched_record
    rw [h]
    by_cases h0 : delay_days = 0
    · simp [h0]
    · by_cases hc : w.first_seen_at ≤ now - delay_days * dayLength
      · simp only [h0, if_false, hc, if_true]
        constructor
        · intro _; right; omega
        · intro _; trivial
      · simp only [h0, if_false, hc, if_true]
        constructor
        · intro hcontra; simp at hcontra
        · intro habs
          rcases habs with h' | h'
          · exact h'.elim
          · exact absurd (show w.first_seen_at ≤ now - delay_days * dayLength
              by omega) hc
  · intro w t2 h
    constructor
    · unfold check_or_create_watched_record
      rw [h]
      have h7 : (7 : Int) ≠ 0 := by norm_num
      have hc : ¬(w.first_seen_at ≤ w.first_seen_at + 6 * dayLength - 7 * dayLength) := by
        unfold dayLength; omega
      simp [h7, hc]
    · intro n hn
      unfold check_or_create_watched_record
      rw [h]
      have h7 : (7 : Int) ≠ 0 := by norm_num
      have hc : w.first_seen_at ≤ n - 7 * dayLength := by omega
      simp [h7, hc]

/-- Claim C1: if any globally-excluded user can access the episode's file,
`process_episode` performs no eviction: no Sonarr call, no file deleted or
created, no log entry and no pending record, whatever the other inputs. -/
theorem claim_C1 (emby_response : String → Option (Option Bool))
    (sonarr : SonarrOracle) (fs : FS) (episode : Episode)
    (required_users excluded_user_ids : List String)
    (user_access_map : List (String × UserAccess))
    (user_names : List (String × String))
    (library_guid : String) (folder_mappings : List (Int × String))
    (test_mode : Bool) (process_logs : List ProcessLog)
    (watched_table : List WatchedEpisode) (now delay_days : Int)
    (ms : MediaSource)
    (h1 : episode.media_sources.head? = some ms)
    (h2 : ∃ uid ∈ excluded_user_ids,
      user_can_access_file ms.path
        ((user_access_map.lookup uid).getD empty_user_access)
        library_guid folder_mappings = true) :
    process_episode emby_response sonarr fs episode required_users
      excluded_user_ids user_access_map user_names library_guid
      folder_mappings test_mode process_logs watched_table now delay_days
    = noEffect process_logs watched_table := by
  have hany : excluded_user_ids.any (fun uid =>
      user_can_access_file ms.path
        ((user_access_map.lookup uid).getD empty_user_access)
        library_guid folder_mappings) = true :=
    List.any_eq_true.mpr h2
  simp [process_episode, h1, hany]

/-- Claim C9: a candidate whose file is accessible to no required user is
rejected before the delay tracker: nothing is evicted, no pending record is
created, no log entry is produced. -/
theorem claim_C9 (emby_response : String → Option (Option Bool))
    (sonarr : SonarrOracle) (fs : FS) (episode : Episode)
    (required_users excluded_user_ids : List String)
    (user_access_map : List (String × UserAccess))
    (user_names : List (String × String))
    (library_guid : String) (folder_mappings : List (Int × String))
    (test_mode : Bool) (process_logs : List ProcessLog)
    (watched_table : List WatchedEpisode) (now delay_days : Int)
    (ms : MediaSource)
    (h1 : episode.media_sources.head? = some ms)
    (h2 : required_users.filter (fun uid =>
      user_can_access_file ms.path
        ((user_access_map.lookup uid).getD empty_user_access)
        library_guid folder_mappings) = []) :
    process_episode emby_response sonarr fs episode required_users
      excluded_user_ids user_access_map user_names library_guid
      folder_mappings test_mode process_logs watched_table now delay_days
    = noEffect process_logs watched_table := by
  simp [process_episode, h1, h2]

/-- Claim C4: the watched-status query covers exactly the accessible
required users, and if any of them reports false or its lookup fails (a
missing or non-200 response counts as false) the candidate is rejected with
no state change. -/
theorem claim_C4 (emby_response : String → Option (Option Bool))
    (sonarr : SonarrOracle) (fs : FS) (episode : Episode)
    (required_users excluded_user_ids : List String)
    (user_access_map : List (String × UserAccess))
    (user_names : List (String × String))
    (library_guid : String) (folder_mappings : List (Int × String))
    (test_mode : Bool) (process_logs : List ProcessLog)
    (watched_table : List WatchedEpisode) (now delay_days : Int)
    (ms : MediaSource) (uid : String)
    (h1 : episode.media_sources.head? = some ms)
    (hu : uid ∈ required_users.filter (fun u =>
      user_can_access_file ms.path
        ((user_access_map.lookup u).getD empty_user_access)
        library_guid folder_mappings))
    (hv : watched_value (emby_response uid) = false) :
    ((check_episode_watched emby_response (required_users.filter (fun u =>
        user_can_access_file ms.path
          ((user_access_map.lookup u).getD empty_user_access)
          library_guid folder_mappings))).map Prod.fst
      = required_users.filter (fun u =>
        user_can_access_file ms.path
          ((user_access_map.lookup u).getD empty_user_access)
          library_guid folder_mappings))
    ∧ process_episode emby_response sonarr fs episode required_users
        excluded_user_ids user_access_map user_names library_guid
        folder_mappings test_mode process_logs watched_table now delay_days
      = noEffect process_logs watched_table := by
  constructor
  · simp [check_episode_watched, Function.comp_def]
  · have hall : (check_episode_watched emby_response
        (required_users.filter (fun u =>
          user_can_access_file ms.path
            ((user_access_map.lookup u).getD empty_user_access)
            library_guid folder_mappings))).all (fun p => p.2) = false := by
      rw [← Bool.not_eq_true, List.all_eq_true]
      intro hfa
      have hmem : (uid, watched_value (emby_response uid)) ∈
          check_episode_watched emby_response
            (required_users.filter (fun u =>
              user_can_access_file ms.path
                ((user_access_map.lookup u).getD empty_user_access)
                library_guid folder_mappings)) :=
        List.mem_map.mpr ⟨uid, hu, rfl⟩
      have := hfa _ hmem
      rw [hv] at this
      simp at this
    have hne : (required_users.filter (fun u =>
        user_can_access_file ms.path
          ((user_access_map.lookup u).getD empty_user_access)
          library_guid folder_mappings)).isEmpty = false := by
      rw [← Bool.not_eq_true, List.isEmpty_iff]
      intro he
      rw [he] at hu
      simp at hu
    simp [process_episode, h1, hne, hall]

/-- Claim C5: with test mode on, once a candidate reaches the transaction the
run stops after constructing the log entry: the entry is recorded with
`success = true`, `test_mode = true` and all five step flags false, no Sonarr
call is made, no file is deleted or created, and no pending record is
removed. -/
theorem claim_C5 (emby_response : String → Option (Option Bool))
    (sonarr : SonarrOracle) (fs : FS) (episode : Episode)
    (required_users excluded_user_ids : List String)
    (user_access_map : List (String × UserAccess))
    (user_names : List (String × String))
    (library_guid : String) (folder_mappings : List (Int × String))
    (process_logs : List ProcessLog)
    (watched_table : List WatchedEpisode) (now delay_days : Int)
    (ms : MediaSource)
    (h1 : episode.media_sources.head? = some ms)
    (h2 : ¬(ms.path = ""))
    (h3 : str_endswith (str_lower ms.path) ".strm" = false)
    (h4 : (!fs.exists_file ms.path
      && fs.exists_file (with_suffix_strm ms.path)) = false)
    (h5 : process_logs.any (fun l =>
      l.original_path == ms.path && l.success && !l.test_mode) = false)
    (h6 : excluded_user_ids.any (fun uid =>
      user_can_access_file ms.path
        ((user_access_map.lookup uid).getD empty_user_access)
        library_guid folder_mappings) = false)
    (h7 : (required_users.filter (fun uid =>
      user_can_access_file ms.path
        ((user_access_map.lookup uid).getD empty_user_access)
        library_guid folder_mappings)).isEmpty = false)
    (h8 : (check_episode_watched emby_response (required_users.filter (fun uid =>
      user_can_access_file ms.path
        ((user_access_map.lookup uid).getD empty_user_access)
        library_guid folder_mappings))).all (fun p => p.2) = true)
    (h9 : (check_or_create_watched_record watched_table now delay_days ms.path
      episode.series_name episode.season_number episode.episode_number).ready
      = true) :
    ((process_episode emby_response sonarr fs episode required_users
        excluded_user_ids user_access_map user_names library_guid
        folder_mappings true process_logs watched_table now
        delay_days).returned.map (fun l =>
          (l.success, l.test_mode, l.sonarr_unmonitored, l.season_unmonitored,
            l.file_deleted, l.strm_created, l.sonarr_renamed)))
      = some (true, true, false, false, false, false, false)
    ∧ (process_episode emby_response sonarr fs episode required_users
        excluded_user_ids user_access_map user_names library_guid
        folder_mappings true process_logs watched_table now
        delay_days).sonarr_calls = []
    ∧ (process_episode emby_response sonarr fs episode required_users
        excluded_user_ids user_access_map user_names library_guid
        folder_mappings true process_logs watched_table now
        delay_days).deleted_files = []
    ∧ (process_episode emby_response sonarr fs episode required_users
        excluded_user_ids user_access_map user_names library_guid
        folder_mappings true process_logs watched_table now
        delay_days).created_files = []
    ∧ (process_episode emby_response sonarr fs episode required_users
        excluded_user_ids user_access_map user_names library_guid
        folder_mappings true process_logs watched_table now
        delay_days).watched_table = watched_table
    ∧ (process_episode emby_response sonarr fs episode required_users
        excluded_user_ids user_access_map user_names library_guid
        folder_mappings true process_logs watched_table now
        delay_days).process_logs
      = process_logs ++ (process_episode emby_response sonarr fs episode
          required_users excluded_user_ids user_access_map user_names
          library_guid folder_mappings true process_logs watched_table now
          delay_days).returned.toList := by
  have htab := check_ready_table_unchanged watched_table now delay_days
    ms.path episode.series_name episode.season_number episode.episode_number h9
  refine ⟨?_, ?_, ?_, ?_, ?_, ?_⟩
  · simp [process_episode, h1, h2, h3, h4, h5, h6, h7, h8, h9]
  · simp [process_episode, h1, h2, h3, h4, h5, h6, h7, h8, h9]
  · simp [process_episode, h1, h2, h3, h4, h5, h6, h7, h8, h9]
  · simp [process_episode, h1, h2, h3, h4, h5, h6, h7, h8, h9]
  · simp [process_episode, h1, h2, h3, h4, h5, h6, h7, h8, h9, htab]
  · simp [process_episode, h1, h2, h3, h4, h5, h6, h7, h8, h9]

theorem stale_remove_condition_iff
    (user_access_map : List (String × UserAccess))
    (required_users : List String) (guid : String)
    (folder_mappings : List (Int × String))
    (watched_paths_of : String → List String) (w : WatchedEpisode) :
    stale_remove_condition user_access_map required_users guid
        folder_mappings watched_paths_of w = true ↔
      ((∃ m ∈ folder_mappings, str_startswith w.file_path m.2 = true) ∧
        (required_users.filter (fun uid =>
            user_can_access_file w.file_path
              ((user_access_map.lookup uid).getD empty_user_access)
              guid folder_mappings) = []
          ∨ ∃ uid ∈ required_users.filter (fun uid =>
              user_can_access_file w.file_path
                ((user_access_map.lookup uid).getD empty_user_access)
                guid folder_mappings),
              w.file_path ∉ watched_paths_of uid)) := by
  unfold stale_remove_condition
  by_cases hb : ((folder_mappings.map (fun m => m.2)).any
      (fun fp => str_startswith w.file_path fp)) = true
  · have hb' : ∃ m ∈ folder_mappings, str_startswith w.file_path m.2 = true := by
      obtain ⟨fp, hfp, hpre⟩ := List.any_eq_true.mp hb
      obtain ⟨m, hm, rfl⟩ := List.mem_map.mp hfp
      exact ⟨m, hm, hpre⟩
    by_cases he : (required_users.filter (fun uid =>
        user_can_access_file w.file_path
          ((user_access_map.lookup uid).getD empty_user_access)
          guid folder_mappings)).isEmpty = true
    · simp only [hb, Bool.not_true, Bool.false_eq_true, if_false, he, if_true]
      rw [List.isEmpty_iff] at he
      simp [hb', he]
    · simp only [hb, Bool.not_true, Bool.false_eq_true, if_false, he,
        Bool.false_eq_true, if_false]
      rw [Bool.not_eq_true, ← Bool.not_eq_true, List.isEmpty_iff] at he
      simp only [List.any_eq_true]
      constructor
      · rintro ⟨uid, hmem, hnc⟩
        refine ⟨hb', Or.inr ⟨uid, hmem, ?_⟩⟩
        intro hcmem
        have hc : (watched_paths_of uid).contains w.file_path = true :=
          List.elem_iff.mpr hcmem
        rw [hc] at hnc
        simp at hnc
      · rintro ⟨-, hor⟩
        rcases hor with hnil | ⟨uid, hmem, hnw⟩
        · exact absurd hnil he
        · refine ⟨uid, hmem, ?_⟩
          have hc : (watched_paths_of uid).contains w.file_path = false := by
            rw [← Bool.not_eq_true]
            exact fun hc => hnw (List.elem_iff.mp hc)
          rw [hc]
          rfl
  · simp only [Bool.not_eq_true] at hb
    simp only [hb, Bool.not_false, if_true]
    constructor
    · intro hfalse; simp at hfalse
    · rintro ⟨⟨m, hm, hpre⟩, -⟩
      have : (folder_mappings.map (fun m => m.2)).any
          (fun fp => str_startswith w.file_path fp) = true :=
        List.any_eq_true.mpr ⟨m.2, List.mem_map.mpr ⟨m, hm, rfl⟩, hpre⟩
      rw [hb] at this
      simp at this

theorem mem_cleanup_one_library (emby_watched : String → String → List Episode)
    (user_access_map : List (String × UserAccess))
    (required_users_of : String → List String)
    (folder_mappings_of : String → List (Int × String))
    (lib : Library) (table : List WatchedEpisode) (w : WatchedEpisode) :
    w ∈ cleanup_one_library emby_watched user_access_map required_users_of
        folder_mappings_of lib table ↔
      w ∈ table ∧ ¬ stale_removal_spec emby_watched user_access_map
        required_users_of folder_mappings_of lib w := by
  unfold cleanup_one_library stale_removal_spec
  by_cases hreq : (required_users_of lib.id).isEmpty = true
  · rw [List.isEmpty_iff] at hreq
    simp [hreq]
  · rw [Bool.not_eq_true, ← Bool.not_eq_true, List.isEmpty_iff] at hreq
    by_cases hfm : ((folder_mappings_of lib.id).map (fun m => m.2)).isEmpty = true
    · rw [List.isEmpty_iff, List.map_eq_nil_iff] at hfm
      have : (required_users_of lib.id).isEmpty = false := by
        rw [← Bool.not_eq_true, List.isEmpty_iff]; exact hreq
      simp [this, hfm]
    · have hr : (required_users_of lib.id).isEmpty = false := by
        rw [← Bool.not_eq_true, List.isEmpty_iff]; exact hreq
      have hf : ((folder_mappings_of lib.id).map (fun m => m.2)).isEmpty
          = false := by
        rw [← Bool.not_eq_true]; exact hfm
      have hfm' : folder_mappings_of lib.id ≠ [] := by
        intro h0
        rw [h0] at hf
        simp at hf
      have hiff := stale_remove_condition_iff user_access_map
        (required_users_of lib.id) lib.guid (folder_mappings_of lib.id)
        (fun uid => extract_watched_paths (emby_watched uid lib.id)) w
      simp only [List.mem_filter] at hiff
      simp only [hr, hf, Bool.false_eq_true, if_false, List.mem_filter,
        Bool.not_eq_true']
      constructor
      · rintro ⟨hmem, hcond⟩
        refine ⟨hmem, ?_⟩
        rintro ⟨-, -, hbel, hrest⟩
        have := hiff.mpr ⟨hbel, hrest⟩
        rw [hcond] at this
        simp at this
      · rintro ⟨hmem, hnspec⟩
        refine ⟨hmem, ?_⟩
        rw [← Bool.not_eq_true]
        intro hcond
        obtain ⟨hbel, hrest⟩ := hiff.mp hcond
        exact hnspec ⟨hreq, hfm', hbel, hrest⟩

theorem cleanup_fold_characterisation
    (emby_watched : String → String → List Episode)
    (user_access_map : List (String × UserAccess))
    (required_users_of : String → List String)
    (folder_mappings_of : String → List (Int × String)) :
    ∀ (libraries : List Library) (table : List WatchedEpisode) (n : Nat)
      (w : WatchedEpisode),
      w ∈ (libraries.foldl
          (fun acc lib =>
            let t := cleanup_one_library emby_watched user_access_map
              required_users_of folder_mappings_of lib acc.1
            (t, acc.2 + (acc.1.length - t.length)))
          (table, n)).1 ↔
        w ∈ table ∧ ∀ lib ∈ libraries,
          ¬ stale_removal_spec emby_watched user_access_map required_users_of
            folder_mappings_of lib w := by
  intro libraries
  induction libraries with
  | nil => intro table n w; simp
  | cons lib rest ih =>
    intro table n w
    rw [List.foldl_cons]
    rw [ih]
    rw [mem_cleanup_one_library]
    constructor
    · rintro ⟨⟨hmem, hlib⟩, hrest⟩
      exact ⟨hmem, by
        intro l hl
        rcases List.mem_cons.mp hl with rfl | hl'
        · exact hlib
        · exact hrest l hl'⟩
    · rintro ⟨hmem, hall⟩
      exact ⟨⟨hmem, hall lib (List.mem_cons_self _ _)⟩,
        fun l hl => hall l (List.mem_cons_of_mem _ hl)⟩

/-- Claim C2 (amended): a pending record survives the sweep iff it was in the
table and no enabled library with at least one required user and at least one
folder mapping both contains the record's path in its folders and has either
no accessible required user or an accessible required user who no longer has
the file in their watched set. -/
theorem claim_C2 : ∀ (emby_watched : String → String → List Episode)
    (user_access_map : List (String × UserAccess))
    (required_users_of : String → List String)
    (folder_mappings_of : String → List (Int × String))
    (libraries : List Library) (table : List WatchedEpisode)
    (w : WatchedEpisode),
    w ∈ (cleanup_stale_watched_records emby_watched user_access_map
        required_users_of folder_mappings_of libraries table).1 ↔
      w ∈ table ∧ ∀ lib ∈ libraries,
        ¬ stale_removal_spec emby_watched user_access_map required_users_of
          folder_mappings_of lib w := by
  intro emby_watched user_access_map required_users_of folder_mappings_of
    libraries table w
  unfold cleanup_stale_watched_records
  exact cleanup_fold_characterisation emby_watched user_access_map
    required_users_of folder_mappings_of libraries table 0 w

/-- Claim C2 as frozen is false on the code: here the sweep removes the
record `wC2` although its file is still in the union of the accessible
required users' watched sets (user u1 still lists it) and at least one
required user can access it, so neither of the claim's removal conditions
holds, yet the record is not kept. -/
theorem claim_C2_counterexample :
    (cleanup_stale_watched_records embyC2 uamC2 reqC2 fmC2 [libC2] [wC2]).1
        = []
    ∧ wC2.file_path ∈ extract_watched_paths (embyC2 "u1" libC2.id)
    ∧ (reqC2 libC2.id).filter (fun uid =>
        user_can_access_file wC2.file_path
          ((uamC2.lookup uid).getD empty_user_access) libC2.guid
          (fmC2 libC2.id)) ≠ [] := by
  refine ⟨by decide, by decide, by decide⟩

/-- Claim C6: whichever step of the live transaction raises an exception, the
remaining steps are skipped, the log entry is recorded with `success = false`
and the exception text captured verbatim, every flag set by a previously
completed step stays set (no rollback), and the pending record is not
removed; at failure point 10 (the rename step, reached after the file was
deleted and the placeholder created) the entry has `file_deleted = true`,
`strm_created = true`, `success = false` and the verbatim message. -/
theorem claim_C6 : ∀ (sid eid fid : Int) (entry0 : ProcessLog)
    (logs : List ProcessLog) (table : List WatchedEpisode) (k : Fin 11)
    (m : String),
    live_transaction (c6_sonarr sid eid fid k m) (c6_fs k m) "/TV/a.mkv"
        "/TV/a.strm" 1 2 entry0 logs table
      = c6_expected sid eid fid entry0 logs table k m := by
  intro sid eid fid entry0 logs table k m
  fin_cases k <;> rfl

theorem claim_C1_witness :
    (∃ uid ∈ ["ux"], user_can_access_file "/TV/a.mkv"
      (([("ux", uaAllW)].lookup uid).getD empty_user_access)
      "G" [(1, "/TV")] = true)
    ∧ process_episode (fun _ => some (some true)) sonarrOkW fsOkW epW ["u1"]
        ["ux"] [("ux", uaAllW)] [] "G" [(1, "/TV")] false [] [] 0 7
      = noEffect [] [] :=
  ⟨⟨"ux", by decide, by decide⟩,
    claim_C1 (fun _ => some (some true)) sonarrOkW fsOkW epW ["u1"]
      ["ux"] [("ux", uaAllW)] [] "G" [(1, "/TV")] false [] [] 0 7
      ⟨"/TV/a.mkv"⟩ rfl ⟨"ux", by decide, by decide⟩⟩

theorem claim_C9_witness :
    (["u1"].filter (fun uid => user_can_access_file "/TV/a.mkv"
        ((([] : List (String × UserAccess)).lookup uid).getD
          empty_user_access) "G" [(1, "/TV")]) = [])
    ∧ process_episode (fun _ => some (some true)) sonarrOkW fsOkW epW ["u1"]
        [] [] [] "G" [(1, "/TV")] false [] [] 0 7
      = noEffect [] [] :=
  ⟨by decide,
    claim_C9 (fun _ => some (some true)) sonarrOkW fsOkW epW ["u1"]
      [] [] [] "G" [(1, "/TV")] false [] [] 0 7
      ⟨"/TV/a.mkv"⟩ rfl (by decide)⟩

theorem claim_C4_witness :
    (watched_value ((fun (_ : String) => (none : Option (Option Bool)))
      "u1") = false)
    ∧ process_episode (fun _ => none) sonarrOkW fsOkW epW ["u1"]
        [] [("u1", uaAllW)] [] "G" [(1, "/TV")] false [] [] 0 7
      = noEffect [] [] :=
  ⟨by decide,
    (claim_C4 (fun _ => none) sonarrOkW fsOkW epW ["u1"]
      [] [("u1", uaAllW)] [] "G" [(1, "/TV")] false [] [] 0 7
      ⟨"/TV/a.mkv"⟩ "u1" rfl (by decide) (by decide)).2⟩

theorem claim_C5_witness :
    (c5w.returned.map (fun l =>
        (l.success, l.test_mode, l.sonarr_unmonitored, l.season_unmonitored,
          l.file_deleted, l.strm_created, l.sonarr_renamed)))
      = some (true, true, false, false, false, false, false)
    ∧ c5w.sonarr_calls = []
    ∧ c5w.deleted_files = []
    ∧ c5w.created_files = []
    ∧ c5w.watched_table = [wRecW]
    ∧ c5w.process_logs = [] ++ c5w.returned.toList :=
  claim_C5 (fun _ => some (some true)) sonarrOkW fsOkW epW ["u1"] []
    [("u1", uaAllW)] [("u1", "Alice")] "G" [(1, "/TV")] [] [wRecW]
    (8 * dayLength) 7 ⟨"/TV/a.mkv"⟩ rfl (by decide) (by decide) (by decide)
    (by decide) (by decide) (by decide) (by decide) (by decide)
